import Mathlib

/-!
Verification of the Volusion loadsheet builder
(`create_volusion_loadsheet.py`) against its natural-language
specification.

The processing core is shallowly embedded: an in-memory table is a list
of column names plus rows mapping column names to optional string cells
(`none` models a pandas `NaN`).  File pickers, encoding detection and the
GUI are external collaborators and are not modelled; the worker receives
the parsed table and returns the transformed table or a typed failure,
mirroring `_process_file_worker`.
-/

namespace Loadsheet

/-! ## String utilities

The source relies on Python string primitives (`str.strip`, `str.lower`,
`str.split`, `startswith`, `endswith`, `",".join`).  They are modelled
here over `List Char` with structural recursion so that every concrete
evaluation reduces inside the kernel. -/

/-- Whitespace characters stripped by Python `str.strip` (ASCII subset). -/
def isSpaceChar (c : Char) : Bool :=
  c = ' ' || c = '\t' || c = '\n' || c = '\r' || c.toNat = 11 || c.toNat = 12

/-- Model of Python `str.strip`: drops leading and trailing whitespace. -/
def strTrim (s : String) : String :=
  ⟨((s.data.dropWhile isSpaceChar).reverse.dropWhile isSpaceChar).reverse⟩

/-- Model of Python `str.lower` (ASCII letters). -/
def strLower (s : String) : String :=
  ⟨s.data.map Char.toLower⟩

/-- Helper for `splitComma`: accumulates the current token (reversed). -/
def splitCommaChars : List Char → List Char → List (List Char)
  | [], acc => [acc.reverse]
  | c :: cs, acc =>
    if c = ',' then acc.reverse :: splitCommaChars cs []
    else splitCommaChars cs (c :: acc)

/-- Model of Python `s.split(',')`. -/
def splitComma (s : String) : List String :=
  (splitCommaChars s.data []).map fun l => ⟨l⟩

/-- Model of Python `", ".join(names)`. -/
def joinCommaSpace : List String → String
  | [] => ""
  | [x] => x
  | x :: xs => x ++ ", " ++ joinCommaSpace xs

/-- Model of Python `name.startswith('[') and name.endswith(']')`. -/
def bracketedB (s : String) : Bool :=
  s.data.head? = some '[' && s.data.getLast? = some ']'

/-! ## Table model -/

/-- A table cell: `none` models a pandas `NaN` / missing value. -/
abbrev Cell := Option String

/-- A row is an association list from column name to cell. -/
abbrev Row := List (String × Cell)

/-- An in-memory data frame: column names plus rows. -/
structure Table where
  cols : List String
  rows : List Row
deriving DecidableEq

/-- Reads the cell of a row at a column label (first matching key). -/
def getCell : Row → String → Cell
  | [], _ => none
  | (k, v) :: r, c => if k = c then v else getCell r c

/-- Column assignment `df[c] = v` at row level: overwrites an existing
column, otherwise appends it. -/
def setCell (r : Row) (c : String) (v : Cell) : Row :=
  if r.any fun p => p.1 = c then
    r.map fun p => if p.1 = c then (c, v) else p
  else
    r ++ [(c, v)]

/-- Membership test on a column-name list (`c in df.columns`). -/
def containsCol : List String → String → Bool
  | [], _ => false
  | c :: cs, c0 => if c = c0 then true else containsCol cs c0

/-- Column-list effect of `df[c] = v`: appends the label when new. -/
def addColName (cols : List String) (c : String) : List String :=
  if containsCol cols c then cols else cols ++ [c]

/-! ## Category resolver (`resolve_category_names`, source lines 55-67)

The global `category_mapping` dict (built at line 37 by
`dict(zip(...))`, so the last occurrence of a duplicate id wins) is
modelled by its getter function; `dictGet` turns the loaded entry list
into that getter. -/

/-- Model of a Python dict lookup over the loaded category entries:
`dict(zip(ids, names))` keeps the last occurrence of a duplicate key. -/
def dictGet (cm : List (String × String)) (k : String) : Option String :=
  (cm.reverse.find? fun p => p.1 == k).map fun p => p.2

/-- The placeholder `f"[{id_}]"` produced for an unresolved category id. -/
def placeholderOf (t : String) : String :=
  "[" ++ t ++ "]"

/-- Model of `resolve_category_names` (source lines 55-67): a non-string
(`NaN`) input yields `""`; otherwise the field is split on `,`, each
non-empty stripped token is looked up (unresolved ids become the
bracketed placeholder), names equal to "shop" case-insensitively and
bracketed names are dropped, and the survivors are joined with ", ". -/
def resolve_category_names (g : String → Option String) (c : Cell) : String :=
  match c with
  | none => ""
  | some s =>
    let ids := splitComma s
    let names := (ids.filter fun i => strTrim i != "").map
      fun i => (g (strTrim i)).getD (placeholderOf (strTrim i))
    let filtered := names.filter fun n => strLower n != "shop" && !(bracketedB n)
    joinCommaSpace filtered

/-! ## Price parsing and formatting (source lines 95-97)

`pd.to_numeric(col, errors='coerce')` followed by
`f"${x:,.2f}" if pd.notnull(x) else ""`.  The numeric coercion is
modelled for plain signed decimal literals (the only shapes the claims
exercise); a failed parse is `none`, exactly like `errors='coerce'`.
Python formats via binary floats with round-half-to-even ties; the model
computes exactly over `ℚ` and rounds half-up, which agrees on every
non-tie value.  No claim depends on tie behaviour. -/

/-- Numeric value of a decimal digit, `none` for other characters. -/
def digitVal? (c : Char) : Option Nat :=
  if 48 ≤ c.toNat && c.toNat ≤ 57 then some (c.toNat - 48) else none

/-- Tests that every character of the list is a decimal digit. -/
def allDigits (l : List Char) : Bool :=
  l.all fun c => (digitVal? c).isSome

/-- Value of a digit string, most significant first. -/
def digitsNat (l : List Char) : Nat :=
  l.foldl (fun acc c => acc * 10 + ((digitVal? c).getD 0)) 0

/-- Splits a character list at the first `'.'`, if any. -/
def splitDot : List Char → List Char × Option (List Char)
  | [] => ([], none)
  | c :: cs =>
    if c = '.' then ([], some cs)
    else
      let p := splitDot cs
      (c :: p.1, p.2)

/-- An exact parsed decimal number: sign, integer part, and the fraction
digits most significant first.  Chosen over `ℚ` so that every concrete
run of the worker reduces inside the kernel. -/
structure DecNum where
  neg : Bool
  ip : Nat
  fracs : List Nat
deriving DecidableEq

/-- Parses an unsigned decimal literal (`"12"`, `"12.5"`, `".5"`,
`"12."`) into integer part and fraction digits. -/
def parseUnsignedDec (l : List Char) : Option (Nat × List Nat) :=
  let p := splitDot l
  match p.2 with
  | none =>
    if !p.1.isEmpty && allDigits p.1 then some (digitsNat p.1, []) else none
  | some fp =>
    if allDigits p.1 && allDigits fp && (!p.1.isEmpty || !fp.isEmpty) then
      some (digitsNat p.1, fp.map fun c => (digitVal? c).getD 0)
    else none

/-- Model of `pd.to_numeric(·, errors='coerce')` on one cell value. -/
def parseDecimal? (s : String) : Option DecNum :=
  match (strTrim s).data with
  | [] => none
  | c :: rest =>
    if c = '-' then (parseUnsignedDec rest).map fun p => ⟨true, p.1, p.2⟩
    else (parseUnsignedDec (c :: rest)).map fun p => ⟨false, p.1, p.2⟩

/-- The exact rational value of a fraction-digit list. -/
def fracsQ : List Nat → ℚ
  | [] => 0
  | d :: ds => ((d : ℚ) + fracsQ ds) / 10

/-- The exact rational value of a parsed decimal. -/
def DecNum.toQ (d : DecNum) : ℚ :=
  (if d.neg then -1 else 1) * ((d.ip : ℚ) + fracsQ d.fracs)

/-- Digit characters of a natural number, most significant first. -/
def natToChars (n : Nat) : List Char :=
  Nat.toDigits 10 n

/-- Helper inserting a `','` after every third character of a reversed
digit list (thousands grouping, working from the least significant
digit). -/
def group3Rev : List Char → List Char
  | [] => []
  | [a] => [a]
  | [a, b] => [a, b]
  | [a, b, c] => [a, b, c]
  | a :: b :: c :: rest => a :: b :: c :: ',' :: group3Rev rest

/-- Thousands-grouped rendering of a natural number. -/
def thousandsGrouped (n : Nat) : String :=
  ⟨(group3Rev (natToChars n).reverse).reverse⟩

/-- Two-digit rendering of a cents remainder (`0 ≤ n < 100`). -/
def twoDigits (n : Nat) : String :=
  (if n < 10 then "0" else "") ++ (⟨natToChars n⟩ : String)

/-- Magnitude of the value in rounded cents.  The tail `0.d₃d₄…` of the
fraction reaches half a cent exactly when `d₃ ≥ 5`, so rounding half-up
needs only the third fraction digit. -/
def centsOf (d : DecNum) : Nat :=
  d.ip * 100 + d.fracs.getD 0 0 * 10 + d.fracs.getD 1 0 +
    (if 5 ≤ d.fracs.getD 2 0 then 1 else 0)

/-- Model of the Python f-string `f"${x:,.2f}"`. -/
def moneyFmt (d : DecNum) : String :=
  "$" ++ (if d.neg then "-" else "") ++
    thousandsGrouped (centsOf d / 100) ++ "." ++ twoDigits (centsOf d % 100)

/-- Per-cell price formatting (source lines 96-97): an unparseable or
missing price renders as the empty string, never as `NaN`. -/
def fmtPrice (c : Cell) : Cell :=
  some (match c with
        | none => ""
        | some s =>
          match parseDecimal? s with
          | none => ""
          | some q => moneyFmt q)

/-! ## The worker pipeline (`_process_file_worker`, source lines 69-169)

File reading, encoding detection and the GUI callbacks are external; the
model starts from the parsed in-memory table.  The pandas column-wise
steps are expressed row-wise: every post-filter step of the source is a
per-row transformation applied uniformly, so `List.map` over the rows is
the same computation. -/

/-- Typed failure of the worker.  `valueError` models the `ValueError`
raised at source line 84 and caught at lines 157-162. -/
inductive PError where
  | valueError (msg : String)
deriving DecidableEq

deriving instance DecidableEq for Except

/-- The required input columns checked at source lines 81-84, in check
order. -/
def requiredCols : List String :=
  ["productcode", "productname", "ischildofproductcode"]

/-- An apostrophe character, kept out of string literals. -/
def squote : String :=
  ⟨[Char.ofNat 39]⟩

/-- The message of the `ValueError` raised at source line 84. -/
def missingMsg (c : String) : String :=
  "Missing required column " ++ squote ++ c ++ squote ++ " in product file."

/-- Tests whether every required column is present. -/
def hasRequired (t : Table) : Bool :=
  requiredCols.all fun c => containsCol t.cols c

/-- Tests whether a row carries `productcode = some k`. -/
def isCode (r : Row) (k : String) : Bool :=
  match getCell r "productcode" with
  | some s => s == k
  | none => false

/-- The `productcode -> productname` dict of source line 87
(`df.set_index('productcode')['productname'].to_dict()`): on duplicate
codes the last row wins; a missing name stays missing. -/
def codeToTitle (rows : List Row) (k : String) : Cell :=
  match (rows.filter fun r => isCode r k).getLast? with
  | some r => getCell r "productname"
  | none => none

/-- The `Parent Title` value of source line 88
(`df['ischildofproductcode'].map(productcode_to_title)`): `NaN` parent
codes and unmatched codes both map to `NaN`. -/
def parentCell (rows : List Row) (r : Row) : Cell :=
  match getCell r "ischildofproductcode" with
  | some k => codeToTitle rows k
  | none => none

/-- Adds the `Parent Title` column to one row (source line 88). -/
def addTitleRow (rows : List Row) (r : Row) : Row :=
  setCell r "Parent Title" (parentCell rows r)

/-- The rows after source line 88, `Parent Title` included. -/
def titledRows (t : Table) : List Row :=
  t.rows.map (addTitleRow t.rows)

/-- Tests whether a row has `ischildofproductcode = some k`. -/
def isChildRef (r : Row) (k : String) : Bool :=
  match getCell r "ischildofproductcode" with
  | some s => s == k
  | none => false

/-- Tests whether a row's own `productcode` occurs in
`df['ischildofproductcode'].dropna()` (source line 91), i.e. the row is
referenced as some row's parent. -/
def isReferenced (rows : List Row) (r : Row) : Bool :=
  match getCell r "productcode" with
  | none => false
  | some k => rows.any fun r2 => isChildRef r2 k

/-- The filter predicate of source line 92
(`~df['productcode'].isin(child_product_codes)`): a `NaN` code is never
in the set, so the row is kept. -/
def keepRow (rows : List Row) (r : Row) : Bool :=
  match getCell r "productcode" with
  | none => true
  | some k => !(rows.any fun r2 => isChildRef r2 k)

/-- The rows surviving the collapse of source lines 90-92. -/
def survivingRows (t : Table) : List Row :=
  (titledRows t).filter (keepRow (titledRows t))

/-- Source lines 95-97 at row level: the price column is reformatted
only when it exists in the table. -/
def priceRow (cols : List String) (r : Row) : Row :=
  if containsCol cols "productprice" then
    setCell r "productprice" (fmtPrice (getCell r "productprice"))
  else r

/-- Source lines 99-103 at row level: `Category Names` is resolved when
`categoryids` exists and the category mapping is non-empty, and is the
sentinel otherwise.  Both branches assign the column. -/
def catRow (cm : List (String × String)) (cols : List String) (r : Row) : Row :=
  if containsCol cols "categoryids" && !cm.isEmpty then
    setCell r "Category Names"
      (some (resolve_category_names (dictGet cm) (getCell r "categoryids")))
  else
    setCell r "Category Names" (some "#N/A")

/-- The declared output columns of source lines 107-111, in order. -/
def finalColumnList : List String :=
  ["productcode", "productname", "ischildofproductcode", "Parent Title",
   "productprice", "length", "width", "height", "productweight",
   "productdescriptionshort", "photourl", "Image 2", "Image 3",
   "producturl", "Category Names"]

/-- Source lines 113-115 at row level: every declared column absent from
the table is backfilled with the sentinel.  The source tests membership
against the growing column list; `finalColumnList` has no duplicate
names, so testing the fixed column list is the same computation. -/
def backfillRow (cols : List String) (r : Row) : Row :=
  finalColumnList.foldl
    (fun acc c => if containsCol cols c then acc else setCell acc c (some "#N/A")) r

/-- Source line 117 at row level: exactly the declared columns are kept,
in declared order. -/
def selectRow (r : Row) : Row :=
  finalColumnList.map fun c => (c, getCell r c)

/-- The rename table of source lines 120-133.  Note that the derived
`Parent Title`, `Image 2` and `Image 3` columns have no entry and keep
their names. -/
def renamePairs : List (String × String) :=
  [("productcode", "Part #"),
   ("productname", "Full Title"),
   ("ischildofproductcode", "Parent #"),
   ("productprice", "Retail Price"),
   ("length", "Length (in)"),
   ("width", "Width (in)"),
   ("height", "Height (in)"),
   ("productweight", "Weight (in)"),
   ("productdescriptionshort", "Description"),
   ("photourl", "Image 1"),
   ("producturl", "Product Link"),
   ("Category Names", "Categories")]

/-- First-match lookup in the rename table. -/
def lookupRename : List (String × String) → String → Option String
  | [], _ => none
  | (k, v) :: rest, c => if k = c then some v else lookupRename rest c

/-- Renames one column label (identity off the rename table). -/
def applyRename (c : String) : String :=
  (lookupRename renamePairs c).getD c

/-- Source lines 120-133 at row level. -/
def renameRow (r : Row) : Row :=
  r.map fun p => (applyRename p.1, p.2)

/-- Source line 135 at row level (`fillna("#N/A")`): every `NaN` cell —
and only `NaN` cells — becomes the sentinel. -/
def fillnaRow (r : Row) : Row :=
  r.map fun p => (p.1, some (p.2.getD "#N/A"))

/-- The column list after source line 88 (`Parent Title` assigned). -/
def cols2 (t : Table) : List String :=
  addColName t.cols "Parent Title"

/-- The column list after source lines 99-103 (`Category Names`
assigned; the collapse and the price step change no columns). -/
def cols4 (t : Table) : List String :=
  addColName (cols2 t) "Category Names"

/-- The output column labels: the declared columns renamed. -/
def outputColumnList : List String :=
  finalColumnList.map applyRename

/-- The per-row composition of the post-collapse steps up to, but not
including, the final `fillna` of source line 135: price formatting,
category resolution, backfill, selection and rename (source
lines 95-133). -/
def preFillnaRow (cm : List (String × String)) (c2 c4 : List String) (r : Row) : Row :=
  renameRow (selectRow (backfillRow c4 (catRow cm c2 (priceRow c2 r))))

/-- The per-row composition of the post-collapse steps: price
formatting, category resolution, backfill, selection, rename, and the
final `fillna`. -/
def finalRowFun (cm : List (String × String)) (c2 c4 : List String) (r : Row) : Row :=
  fillnaRow (preFillnaRow cm c2 c4 r)

/-- Model of `_process_file_worker` (source lines 69-169) from the
parsed table onward: the required-column validation of lines 81-84
aborts with the `ValueError` naming the first missing column; otherwise
the collapse, enrichment and projection steps produce the output table.
The `except` handlers at lines 143-169 only surface the failure to the
GUI and keep `processed_df` unset, i.e. no output table. -/
def process_file_worker (cm : List (String × String)) (t : Table) :
    Except PError Table :=
  match requiredCols.find? (fun c => !containsCol t.cols c) with
  | some c => .error (.valueError (missingMsg c))
  | none =>
    .ok { cols := outputColumnList
          rows := (survivingRows t).map (finalRowFun cm (cols2 t) (cols4 t)) }

/-! ## Spec-side definitions

These few definitions follow the specification's words, not the source;
each is used only to state a claim against the source-derived model. -/

/-- Spec-side definition, following §4.1 steps 1-5 of the specification
verbatim, for comparison with the source-derived
`resolve_category_names`. -/
def resolveIds_spec (g : String → Option String) (idsField : Cell) : String :=
  match idsField with
  | none => ""
  | some s =>
    if s = "" then ""
    else
      let tokens := (splitComma s).map strTrim
      let names := (tokens.filter fun t => t != "").map
        fun t => match g t with
                 | some n => n
                 | none => placeholderOf t
      let survivors := names.filter fun n => !(strLower n == "shop") && !(bracketedB n)
      joinCommaSpace survivors

/-- Spec-side predicate for a "spreadsheet hyperlink formula" / "
formula-style wrapper": a spreadsheet formula cell begins with `=`. -/
def isSpreadsheetFormula (s : String) : Bool :=
  s.data.head? = some '='

/-- Spec-side count of the claimed output rows: input rows whose
`productcode` is not referenced as ANOTHER row's
`ischildofproductcode`. -/
def claimSurvivorCount (rows : List Row) : Nat :=
  ((List.range rows.length).filter fun i =>
    match getCell (rows.getD i []) "productcode" with
    | none => true
    | some k =>
      !((List.range rows.length).any fun j =>
          j != i && isChildRef (rows.getD j []) k)).length

/-- The category-name getter with every bracketed mapped name removed,
used to state that such names behave exactly like unresolved ids. -/
def dropBracketedNames (g : String → Option String) : String → Option String :=
  fun t =>
    match g t with
    | some n => if bracketedB n then none else some n
    | none => none

/-! ## Price-tier model (spec §4.3)

Modelled from the spec: the jobber/dealer/OEM price-tier pipeline
variant is not part of `src/create_volusion_loadsheet.py` (that file
only reformats `productprice`); §4.3 of the specification describes it
for the repository's other loadsheet variant.  The model follows the
spec's words: per-tier multipliers defaulting to 0.85 / 0.75 / 0.675, a
`ValidationError` aborting the whole run on an unparseable user-supplied
multiplier, `round(basePrice * multiplier, 2)` per tier (round-half-up,
one of the two roundings the spec allows), and null propagation. -/

/-- Rounding to two decimal places over exact rationals (half-up). -/
def round2 (q : ℚ) : ℚ :=
  (round (q * 100) : ℤ) / 100

/-- The three tier multipliers. -/
structure TierMultipliers where
  jobber : ℚ
  dealer : ℚ
  oemwd : ℚ

/-- The spec's default multipliers 0.85 / 0.75 / 0.675. -/
def defaultMultipliers : TierMultipliers :=
  ⟨85 / 100, 75 / 100, 675 / 1000⟩

/-- The three computed tiers of one row; `none` is a propagated null. -/
structure TierPrices where
  jobber : Option ℚ
  dealer : Option ℚ
  oemwd : Option ℚ

/-- Typed failure of the tier pipeline. -/
inductive TierError where
  | validationError (param : String)
deriving DecidableEq

/-- Spec §4.3 `computeTiers`: each tier is the rounded product, and a
null base price propagates to null tiers. -/
def computeTiers (basePrice : Option ℚ) (m : TierMultipliers) : TierPrices :=
  match basePrice with
  | none => ⟨none, none, none⟩
  | some p =>
    ⟨some (round2 (p * m.jobber)), some (round2 (p * m.dealer)),
     some (round2 (p * m.oemwd))⟩

/-- Parses one user-supplied multiplier: an absent input takes the
default, an unparseable supplied input is a `ValidationError`. -/
def parseMultiplier (nm : String) (input : Option String) (dflt : ℚ) :
    Except TierError ℚ :=
  match input with
  | none => .ok dflt
  | some s =>
    match parseDecimal? s with
    | some d => .ok d.toQ
    | none => .error (.validationError nm)

/-- Spec §4.3 / §7 tier pipeline: multiplier validation is fail-fast —
any unparseable supplied multiplier aborts before any row is
processed. -/
def runPriceTiers (jobberIn dealerIn oemIn : Option String)
    (basePrices : List (Option ℚ)) : Except TierError (List TierPrices) := do
  let j ← parseMultiplier "jobber" jobberIn defaultMultipliers.jobber
  let d ← parseMultiplier "dealer" dealerIn defaultMultipliers.dealer
  let o ← parseMultiplier "oemwd" oemIn defaultMultipliers.oemwd
  .ok (basePrices.map fun p => computeTiers p ⟨j, d, o⟩)

/-! ## Concrete fixture tables -/

/-- Row A: a parent with an empty `ischildofproductcode`. -/
def rowA : Row :=
  [("productcode", some "A"), ("productname", some "Alpha"),
   ("ischildofproductcode", none)]

/-- Row B: a child of A. -/
def rowB : Row :=
  [("productcode", some "B"), ("productname", some "Beta"),
   ("ischildofproductcode", some "A")]

/-- Row C: a standalone row with an empty `ischildofproductcode`. -/
def rowC : Row :=
  [("productcode", some "C"), ("productname", some "Gamma"),
   ("ischildofproductcode", none)]

/-- Fixture: parent A, its child B, and standalone C. -/
def tableABC : Table :=
  ⟨["productcode", "productname", "ischildofproductcode"], [rowA, rowB, rowC]⟩

/-- Fixture: a single standalone row. -/
def tableSingle : Table :=
  ⟨["productcode", "productname", "ischildofproductcode"],
   [[("productcode", some "A"), ("productname", some "N"),
     ("ischildofproductcode", none)]]⟩

/-- Fixture: a single row whose `ischildofproductcode` is its own
`productcode`. -/
def tableSelfRef : Table :=
  ⟨["productcode", "productname", "ischildofproductcode"],
   [[("productcode", some "X"), ("productname", some "Xray"),
     ("ischildofproductcode", some "X")]]⟩

/-- Fixture: a single row with an unparseable `productprice`. -/
def tablePrice : Table :=
  ⟨["productcode", "productname", "ischildofproductcode", "productprice"],
   [[("productcode", some "A"), ("productname", some "N"),
     ("ischildofproductcode", none), ("productprice", some "abc")]]⟩

/-- Fixture: a single row carrying all four hyperlink-eligible source
columns. -/
def tableLinks : Table :=
  ⟨["productcode", "productname", "ischildofproductcode",
    "photourl", "producturl", "Image 2", "Image 3"],
   [[("productcode", some "P1"), ("productname", some "Prod"),
     ("ischildofproductcode", none), ("photourl", some "http://x/a.jpg"),
     ("producturl", some "http://x/p"), ("Image 2", none),
     ("Image 3", some "http://x/i3.jpg")]]⟩

/-- Fixture: a table lacking `productname` and `ischildofproductcode`. -/
def tableNoName : Table :=
  ⟨["productcode"], []⟩

/-- Fixture: all required columns present but zero rows. -/
def tableEmptyRows : Table :=
  ⟨["productcode", "productname", "ischildofproductcode"], []⟩

/-- Fixture: the example category mapping of the specification,
`{1: "Shop", 2: "Brakes"}` with id 3 unmapped. -/
def exampleMapping : List (String × String) :=
  [("1", "Shop"), ("2", "Brakes")]

/-! ## Basic lemmas about the table operations -/

theorem getCell_nil (c : String) : getCell [] c = none := rfl

theorem getCell_cons (k : String) (v : Cell) (r : Row) (c : String) :
    getCell ((k, v) :: r) c = if k = c then v else getCell r c := rfl

theorem containsCol_cons (a : String) (l : List String) (c : String) :
    containsCol (a :: l) c = if a = c then true else containsCol l c := rfl

theorem containsCol_append (l1 l2 : List String) (c : String) :
    containsCol (l1 ++ l2) c = (containsCol l1 c || containsCol l2 c) := by
  induction l1 with
  | nil => rfl
  | cons a l1 ih =>
    by_cases h : a = c <;> simp [containsCol_cons, h, ih]

theorem getCell_map_upd_self (c : String) (v : Cell) :
    ∀ r : Row, (r.any fun p => decide (p.1 = c)) = true →
      getCell (r.map fun p => if p.1 = c then (c, v) else p) c = v := by
  intro r
  induction r with
  | nil => intro h; simp at h
  | cons p r ih =>
    intro h
    obtain ⟨k, w⟩ := p
    by_cases hk : k = c
    · simp [getCell_cons, hk]
    · simp only [List.any_cons, decide_eq_true_eq, Bool.or_eq_true] at h
      simp only [List.map_cons, if_neg hk, getCell_cons, if_neg hk]
      exact ih (h.resolve_left hk)

theorem getCell_append_single_self (c : String) (v : Cell) :
    ∀ r : Row, (r.any fun p => decide (p.1 = c)) = false →
      getCell (r ++ [(c, v)]) c = v := by
  intro r
  induction r with
  | nil => intro _; simp [getCell_cons]
  | cons p r ih =>
    intro h
    obtain ⟨k, w⟩ := p
    simp only [List.any_cons, decide_eq_true_eq, Bool.or_eq_false_iff,
      decide_eq_false_iff_not] at h
    simp only [List.cons_append, getCell_cons, if_neg h.1]
    exact ih h.2

theorem getCell_setCell_self (r : Row) (c : String) (v : Cell) :
    getCell (setCell r c v) c = v := by
  unfold setCell
  split
  next h => exact getCell_map_upd_self c v r h
  next h => exact getCell_append_single_self c v r (by rwa [Bool.not_eq_true] at h)

theorem getCell_map_upd_ne (c c' : String) (v : Cell) (h : c' ≠ c) :
    ∀ r : Row,
      getCell (r.map fun p => if p.1 = c then (c, v) else p) c' = getCell r c' := by
  intro r
  induction r with
  | nil => rfl
  | cons p r ih =>
    obtain ⟨k, w⟩ := p
    by_cases hk : k = c
    · subst hk
      have h' : ¬ k = c' := fun hc => h hc.symm
      simp [getCell_cons, h', ih]
    · by_cases hkc : k = c'
      · simp [getCell_cons, hk, hkc, h]
      · simp [getCell_cons, hk, hkc, ih]

theorem getCell_append_single_ne (c c' : String) (v : Cell) (h : c' ≠ c) :
    ∀ r : Row, getCell (r ++ [(c, v)]) c' = getCell r c' := by
  intro r
  induction r with
  | nil =>
    have h' : ¬ c = c' := fun hc => h hc.symm
    simp [getCell_cons, h']
  | cons p r ih =>
    obtain ⟨k, w⟩ := p
    simp only [List.cons_append, getCell_cons]
    by_cases hkc : k = c'
    · simp [hkc]
    · simp [hkc, ih]

theorem getCell_setCell_ne (r : Row) (c c' : String) (v : Cell) (h : c' ≠ c) :
    getCell (setCell r c v) c' = getCell r c' := by
  unfold setCell
  split
  · exact getCell_map_upd_ne c c' v h r
  · exact getCell_append_single_ne c c' v h r

theorem containsCol_addColName_of (cols : List String) (c c' : String)
    (h : containsCol cols c = true) :
    containsCol (addColName cols c') c = true := by
  unfold addColName
  split
  · exact h
  · simp [containsCol_append, h]

/-! ## Lemmas about the worker steps -/

theorem hasRequired_find {t : Table} (h : hasRequired t = true) :
    requiredCols.find? (fun c => !containsCol t.cols c) = none := by
  rw [List.find?_eq_none]
  intro c hc
  unfold hasRequired at h
  rw [List.all_eq_true] at h
  simp [h c hc]

/-- A successful worker run, unfolded: validation passes and the output
is the projected survivors. -/
theorem worker_ok (cm : List (String × String)) (t : Table)
    (h : hasRequired t = true) :
    process_file_worker cm t =
      .ok { cols := outputColumnList,
            rows := (survivingRows t).map (finalRowFun cm (cols2 t) (cols4 t)) } := by
  unfold process_file_worker
  rw [hasRequired_find h]

theorem getCell_addTitleRow_ne (rows : List Row) (r : Row) (c : String)
    (h : c ≠ "Parent Title") :
    getCell (addTitleRow rows r) c = getCell r c :=
  getCell_setCell_ne r "Parent Title" c (parentCell rows r) h

theorem keepRow_eq_not_isReferenced (rows : List Row) (r : Row) :
    keepRow rows r = !isReferenced rows r := by
  unfold keepRow isReferenced
  cases getCell r "productcode" <;> simp

theorem isChildRef_addTitleRow (rows : List Row) (r : Row) (k : String) :
    isChildRef (addTitleRow rows r) k = isChildRef r k := by
  unfold isChildRef
  rw [getCell_addTitleRow_ne rows r _ (by decide)]

theorem any_map_eq {α β : Type} (l : List α) (f : α → β) (p : β → Bool) :
    (l.map f).any p = l.any fun a => p (f a) := by
  induction l with
  | nil => rfl
  | cons a l ih => simp [ih]

theorem filter_map_comm {α β : Type} (l : List α) (f : α → β) (p : β → Bool) :
    (l.map f).filter p = (l.filter fun a => p (f a)).map f := by
  induction l with
  | nil => rfl
  | cons a l ih => by_cases h : p (f a) <;> simp [h, ih]

theorem keepRow_titled (t : Table) (r : Row) :
    keepRow (titledRows t) (addTitleRow t.rows r) = !isReferenced t.rows r := by
  rw [keepRow_eq_not_isReferenced]
  unfold isReferenced
  rw [getCell_addTitleRow_ne t.rows r _ (by decide)]
  cases getCell r "productcode" with
  | none => rfl
  | some k => simp only [titledRows, any_map_eq, isChildRef_addTitleRow]

/-- The collapse, phrased over the original input rows: a row survives
iff its own `productcode` is not referenced as any row's
`ischildofproductcode`. -/
theorem survivingRows_eq (t : Table) :
    survivingRows t =
      (t.rows.filter fun r => !isReferenced t.rows r).map (addTitleRow t.rows) := by
  unfold survivingRows
  conv_lhs => rw [titledRows]
  rw [filter_map_comm]
  congr 1
  apply List.filter_congr
  intro r _
  exact keepRow_titled t r

/-- Effect of the backfill fold on one cell: a column in the declared
list but absent from the table becomes the sentinel, every other cell is
untouched. -/
theorem getCell_backfill_fold (cols : List String) (c : String) :
    ∀ (L : List String) (r : Row),
      getCell
        (L.foldl
          (fun acc c0 => if containsCol cols c0 then acc else setCell acc c0 (some "#N/A")) r)
        c =
      if containsCol L c && !containsCol cols c then some "#N/A" else getCell r c := by
  intro L
  induction L with
  | nil => intro r; simp [containsCol]
  | cons a L ih =>
    intro r
    simp only [List.foldl_cons]
    by_cases hac : a = c
    · subst hac
      by_cases hc : containsCol cols a = true
      · simp [hc, ih, containsCol_cons]
      · simp only [Bool.not_eq_true] at hc
        simp [hc, ih, getCell_setCell_self, containsCol_cons]
    · have hca : c ≠ a := fun h2 => hac h2.symm
      by_cases hc : containsCol cols a = true
      · simp [hc, ih, containsCol_cons, hac]
      · simp only [Bool.not_eq_true] at hc
        simp [hc, ih, containsCol_cons, hac, getCell_setCell_ne r a c _ hca]

theorem getCell_backfillRow (cols : List String) (r : Row) (c : String) :
    getCell (backfillRow cols r) c =
      if containsCol finalColumnList c && !containsCol cols c then some "#N/A"
      else getCell r c :=
  getCell_backfill_fold cols c finalColumnList r

theorem getCell_backfillRow_present (cols : List String) (r : Row) (c : String)
    (h : containsCol cols c = true) :
    getCell (backfillRow cols r) c = getCell r c := by
  rw [getCell_backfillRow, h]
  simp

theorem getCell_priceRow_ne (cols : List String) (r : Row) (c : String)
    (h : c ≠ "productprice") :
    getCell (priceRow cols r) c = getCell r c := by
  unfold priceRow
  split
  · exact getCell_setCell_ne r _ c _ h
  · rfl

theorem getCell_catRow_ne (cm : List (String × String)) (cols : List String)
    (r : Row) (c : String) (h : c ≠ "Category Names") :
    getCell (catRow cm cols r) c = getCell r c := by
  unfold catRow
  split
  · exact getCell_setCell_ne r _ c _ h
  · exact getCell_setCell_ne r _ c _ h

theorem getCell_catRow_self (cm : List (String × String)) (cols : List String)
    (r : Row) :
    getCell (catRow cm cols r) "Category Names" =
      if containsCol cols "categoryids" && !cm.isEmpty then
        some (resolve_category_names (dictGet cm) (getCell r "categoryids"))
      else some "#N/A" := by
  unfold catRow
  by_cases hc : (containsCol cols "categoryids" && !cm.isEmpty) = true
  · rw [if_pos hc, if_pos hc, getCell_setCell_self]
  · rw [if_neg hc, if_neg hc, getCell_setCell_self]

/-- The select-rename-fillna tail of the projection, cell by cell: the
output cell under the renamed label is the source cell with `NaN`
replaced by the sentinel. -/
theorem getCell_projTail (r : Row) (c0 : String) (h : c0 ∈ finalColumnList) :
    getCell (fillnaRow (renameRow (selectRow r))) (applyRename c0) =
      some ((getCell r c0).getD "#N/A") := by
  fin_cases h <;> rfl

/-- The select-rename part of the projection alone (before `fillna`),
cell by cell: the cell under the renamed label is exactly the source
cell, nulls included. -/
theorem getCell_renameSelect (r : Row) (c0 : String) (h : c0 ∈ finalColumnList) :
    getCell (renameRow (selectRow r)) (applyRename c0) = getCell r c0 := by
  fin_cases h <;> rfl

/-- Pass-through of the post-collapse steps for a column that is present
in the table and is neither the price nor the category column. -/
theorem getCell_finalRowFun (cm : List (String × String)) (c2 c4 : List String)
    (r : Row) (c0 : String) (h : c0 ∈ finalColumnList)
    (hc4 : containsCol c4 c0 = true)
    (hp : c0 ≠ "productprice") (hcat : c0 ≠ "Category Names") :
    getCell (finalRowFun cm c2 c4 r) (applyRename c0) =
      some ((getCell r c0).getD "#N/A") := by
  unfold finalRowFun preFillnaRow
  rw [getCell_projTail _ c0 h, getCell_backfillRow_present _ _ _ hc4,
      getCell_catRow_ne _ _ _ _ hcat, getCell_priceRow_ne _ _ _ hp]

theorem hasRequired_contains {t : Table} (h : hasRequired t = true) (c : String)
    (hc : c ∈ requiredCols) : containsCol t.cols c = true := by
  unfold hasRequired at h
  rw [List.all_eq_true] at h
  exact h c hc

theorem cols4_of_cols (t : Table) (c : String) (h : containsCol t.cols c = true) :
    containsCol (cols4 t) c = true :=
  containsCol_addColName_of _ _ _ (containsCol_addColName_of _ _ _ h)

/-- Column-level pass-through over all output rows: for a source column
present in the input (and distinct from the price and category columns),
the output column under the renamed label is the source column with
`NaN` replaced by the sentinel. -/
theorem outCol_passthrough (cm : List (String × String)) (t : Table)
    (c0 : String) (h0 : c0 ∈ finalColumnList)
    (hc : containsCol t.cols c0 = true)
    (hp : c0 ≠ "productprice") (hcat : c0 ≠ "Category Names") :
    ((survivingRows t).map (finalRowFun cm (cols2 t) (cols4 t))).map
        (fun r => getCell r (applyRename c0)) =
      (survivingRows t).map (fun r => some ((getCell r c0).getD "#N/A")) := by
  rw [List.map_map]
  apply List.map_congr_left
  intro r _
  exact getCell_finalRowFun cm _ _ r c0 h0 (cols4_of_cols t c0 hc) hp hcat

/-- The source's filter-then-strip token processing equals the spec's
strip-then-filter order. -/
theorem resolver_core_eq (g : String → Option String) (l : List String) :
    (l.filter fun i => strTrim i != "").map
        (fun i => (g (strTrim i)).getD (placeholderOf (strTrim i))) =
      ((l.map strTrim).filter fun t => t != "").map
        (fun t => match g t with
                  | some n => n
                  | none => placeholderOf t) := by
  rw [filter_map_comm, List.map_map]
  apply List.map_congr_left
  intro a _
  simp only [Function.comp]
  cases g (strTrim a) <;> rfl

/-! ## The claims -/

/-- C3 counterexample: the output columns of a successful run are the
fixed list in which the derived `Parent Title` column is NOT renamed to
`Title`; no output column is named `Title`. -/
theorem c3_counterexample :
    (process_file_worker [] tableSingle).map Table.cols = .ok outputColumnList ∧
    "Parent Title" ∈ outputColumnList ∧ "Title" ∉ outputColumnList := by
  decide

/-- C3 (amended): every successful run's output has exactly the declared
columns, in declared order, renamed per the source's rename table — under
which the derived `Parent Title` column keeps the name `Parent Title`
(there is no rename entry for it), rather than appearing as `Title`. -/
theorem c3_amended (cm : List (String × String)) (t : Table)
    (h : hasRequired t = true) :
    ∃ out, process_file_worker cm t = .ok out ∧
      out.cols = ["Part #", "Full Title", "Parent #", "Parent Title",
                  "Retail Price", "Length (in)", "Width (in)", "Height (in)",
                  "Weight (in)", "Description", "Image 1", "Image 2", "Image 3",
                  "Product Link", "Categories"] := by
  refine ⟨_, worker_ok cm t h, ?_⟩
  show outputColumnList = _
  decide

/-- C3 witness: the amended theorem applied to the one-row fixture. -/
theorem c3_amended_witness :
    ∃ out, process_file_worker [] tableSingle = .ok out ∧
      out.cols = ["Part #", "Full Title", "Parent #", "Parent Title",
                  "Retail Price", "Length (in)", "Width (in)", "Height (in)",
                  "Weight (in)", "Description", "Image 1", "Image 2", "Image 3",
                  "Product Link", "Categories"] :=
  c3_amended [] tableSingle (by decide)

/-- C7: a table missing at least one required input column makes the
worker abort — before any row processing and with no output table, since
the `ValueError` is raised ahead of the transformation steps and the
handler only reports it — and the failure message names the missing
column. -/
theorem c7_schema_error (cm : List (String × String)) (t : Table)
    (h : hasRequired t = false) :
    ∃ c ∈ requiredCols, containsCol t.cols c = false ∧
      process_file_worker cm t = .error (.valueError (missingMsg c)) := by
  cases hf : requiredCols.find? (fun c => !containsCol t.cols c) with
  | none =>
    exfalso
    rw [List.find?_eq_none] at hf
    have hall : hasRequired t = true := by
      unfold hasRequired
      rw [List.all_eq_true]
      intro c hc
      have := hf c hc
      simpa using this
    rw [hall] at h
    cases h
  | some c =>
    have hmem := List.mem_of_find?_eq_some hf
    have hcf : containsCol t.cols c = false := by
      have := List.find?_some hf
      simpa using this
    refine ⟨c, hmem, hcf, ?_⟩
    unfold process_file_worker
    rw [hf]

/-- C7 witness: the schema-error theorem applied to a table that lacks
`productname` and `ischildofproductcode`. -/
theorem c7_schema_error_witness :
    ∃ c ∈ requiredCols, containsCol tableNoName.cols c = false ∧
      process_file_worker [] tableNoName = .error (.valueError (missingMsg c)) :=
  c7_schema_error [] tableNoName (by decide)

/-- C9 counterexample: a zero-row table with the required columns
present is NOT aborted; the worker succeeds and produces a zero-row
output table (the `EmptyDataError` handler concerns files with no
parseable columns, which never reach row processing). -/
theorem c9_counterexample :
    process_file_worker [] tableEmptyRows = .ok ⟨outputColumnList, []⟩ := by
  decide

/-- C9 (amended): a zero-row input table whose required columns are
present is processed successfully into a zero-row output table; no
empty-input abort occurs in the worker's row processing. -/
theorem c9_amended (cm : List (String × String)) (cols : List String)
    (h : hasRequired ⟨cols, []⟩ = true) :
    process_file_worker cm ⟨cols, []⟩ = .ok ⟨outputColumnList, []⟩ := by
  rw [worker_ok cm ⟨cols, []⟩ h]
  rfl

/-- C9 witness: the amended theorem applied to the zero-row fixture. -/
theorem c9_amended_witness :
    process_file_worker [] ⟨["productcode", "productname",
        "ischildofproductcode"], []⟩ = .ok ⟨outputColumnList, []⟩ :=
  c9_amended [] ["productcode", "productname", "ischildofproductcode"] (by decide)

/-- C6 counterexample: with `productprice` present but unparseable, the
output `Retail Price` cell is the empty string — a blank cell, not the
sentinel — because the price formatter emits `""` (not `NaN`) and
`fillna` only replaces `NaN`. -/
theorem c6_counterexample :
    (process_file_worker [] tablePrice).map
        (fun o => o.rows.map fun r => getCell r "Retail Price") =
      .ok [some ""] ∧ ("" : String) ≠ "#N/A" := by
  decide

/-- C6 (amended): the output rows are exactly the `fillna` of the
projected pre-`fillna` rows, and on every output column that final pass
replaces each remaining `NaN` cell with exactly the sentinel `#N/A`
while leaving every non-null cell (the empty string included, e.g. a
formatted missing or unparseable price) unchanged — so no output cell is
null, but blank empty-string cells remain possible. -/
theorem c6_amended (cm : List (String × String)) (t : Table)
    (h : hasRequired t = true) :
    ∃ out, process_file_worker cm t = .ok out ∧
      out.rows =
        ((survivingRows t).map (preFillnaRow cm (cols2 t) (cols4 t))).map
          fillnaRow ∧
      (∀ r ∈ (survivingRows t).map (preFillnaRow cm (cols2 t) (cols4 t)),
        ∀ c ∈ outputColumnList,
          (getCell r c = none → getCell (fillnaRow r) c = some "#N/A") ∧
          ∀ v, getCell r c = some v → getCell (fillnaRow r) c = some v) ∧
      (∀ r ∈ out.rows, ∀ c ∈ out.cols, (getCell r c).isSome = true) := by
  refine ⟨_, worker_ok cm t h, ?_, ?_, ?_⟩
  · show (survivingRows t).map (finalRowFun cm (cols2 t) (cols4 t)) =
      ((survivingRows t).map (preFillnaRow cm (cols2 t) (cols4 t))).map fillnaRow
    rw [List.map_map]
    apply List.map_congr_left
    intro r _
    rfl
  · intro r hr c hc
    obtain ⟨r0, _, rfl⟩ := List.mem_map.mp hr
    simp only [outputColumnList] at hc
    obtain ⟨c0, hc0, rfl⟩ := List.mem_map.mp hc
    constructor
    · intro hnone
      unfold preFillnaRow at hnone ⊢
      rw [getCell_renameSelect _ c0 hc0] at hnone
      rw [getCell_projTail _ c0 hc0, hnone]
      rfl
    · intro v hv
      unfold preFillnaRow at hv ⊢
      rw [getCell_renameSelect _ c0 hc0] at hv
      rw [getCell_projTail _ c0 hc0, hv]
      rfl
  · intro r hr c hc
    obtain ⟨r0, _, rfl⟩ := List.mem_map.mp hr
    simp only [outputColumnList] at hc
    obtain ⟨c0, hc0, rfl⟩ := List.mem_map.mp hc
    unfold finalRowFun preFillnaRow
    rw [getCell_projTail _ c0 hc0]
    rfl

/-- C6 witness: the amended theorem applied to the unparseable-price
fixture (whose pre-`fillna` row has a `NaN` `Parent #` cell, replaced by
the sentinel, and an empty-string `Retail Price` cell, left unchanged). -/
theorem c6_amended_witness :
    ∃ out, process_file_worker [] tablePrice = .ok out ∧
      out.rows =
        ((survivingRows tablePrice).map
          (preFillnaRow [] (cols2 tablePrice) (cols4 tablePrice))).map
          fillnaRow ∧
      (∀ r ∈ (survivingRows tablePrice).map
          (preFillnaRow [] (cols2 tablePrice) (cols4 tablePrice)),
        ∀ c ∈ outputColumnList,
          (getCell r c = none → getCell (fillnaRow r) c = some "#N/A") ∧
          ∀ v, getCell r c = some v → getCell (fillnaRow r) c = some v) ∧
      (∀ r ∈ out.rows, ∀ c ∈ out.cols, (getCell r c).isSome = true) :=
  c6_amended [] tablePrice (by decide)

/-- C2 counterexample: a surviving row with
`photourl = "http://x/a.jpg"` yields an `Image 1` cell holding exactly
the raw URL — not a spreadsheet hyperlink formula wrapping it (the
worker never builds any formula around URL cells). -/
theorem c2_counterexample :
    (process_file_worker [] tableLinks).map
        (fun o => o.rows.map fun r => getCell r "Image 1") =
      .ok [some "http://x/a.jpg"] ∧
    isSpreadsheetFormula "http://x/a.jpg" = false ∧
    ("http://x/a.jpg" : String) ≠ "#N/A" := by
  decide

/-- C2 (amended): for every surviving row, each hyperlink-eligible
output cell (`Image 1`, `Image 2`, `Image 3`, `Product Link`) carries
the raw source value unchanged when it is present, and the sentinel
`#N/A` when it is missing; no spreadsheet hyperlink formula wrapping is
applied anywhere. -/
theorem c2_amended (cm : List (String × String)) (t : Table)
    (h : hasRequired t = true)
    (hp : containsCol t.cols "photourl" = true)
    (hu : containsCol t.cols "producturl" = true)
    (h2 : containsCol t.cols "Image 2" = true)
    (h3 : containsCol t.cols "Image 3" = true) :
    ∃ out, process_file_worker cm t = .ok out ∧
      out.rows.map (fun r => getCell r "Image 1") =
        (survivingRows t).map
          (fun r => some ((getCell r "photourl").getD "#N/A")) ∧
      out.rows.map (fun r => getCell r "Product Link") =
        (survivingRows t).map
          (fun r => some ((getCell r "producturl").getD "#N/A")) ∧
      out.rows.map (fun r => getCell r "Image 2") =
        (survivingRows t).map
          (fun r => some ((getCell r "Image 2").getD "#N/A")) ∧
      out.rows.map (fun r => getCell r "Image 3") =
        (survivingRows t).map
          (fun r => some ((getCell r "Image 3").getD "#N/A")) := by
  refine ⟨_, worker_ok cm t h, ?_, ?_, ?_, ?_⟩
  · exact outCol_passthrough cm t "photourl" (by decide) hp (by decide) (by decide)
  · exact outCol_passthrough cm t "producturl" (by decide) hu (by decide) (by decide)
  · exact outCol_passthrough cm t "Image 2" (by decide) h2 (by decide) (by decide)
  · exact outCol_passthrough cm t "Image 3" (by decide) h3 (by decide) (by decide)

/-- C2 witness: the amended theorem applied to the hyperlink-column
fixture. -/
theorem c2_amended_witness :
    ∃ out, process_file_worker [] tableLinks = .ok out ∧
      out.rows.map (fun r => getCell r "Image 1") =
        (survivingRows tableLinks).map
          (fun r => some ((getCell r "photourl").getD "#N/A")) ∧
      out.rows.map (fun r => getCell r "Product Link") =
        (survivingRows tableLinks).map
          (fun r => some ((getCell r "producturl").getD "#N/A")) ∧
      out.rows.map (fun r => getCell r "Image 2") =
        (survivingRows tableLinks).map
          (fun r => some ((getCell r "Image 2").getD "#N/A")) ∧
      out.rows.map (fun r => getCell r "Image 3") =
        (survivingRows tableLinks).map
          (fun r => some ((getCell r "Image 3").getD "#N/A")) :=
  c2_amended [] tableLinks (by decide) (by decide) (by decide) (by decide)
    (by decide)

/-- C4 counterexample: a single row whose `ischildofproductcode` equals
its own `productcode` is dropped by the worker (the `isin` filter does
not exclude the row's own reference), so the output has 0 rows while
rows not referenced by ANOTHER row number 1. -/
theorem c4_counterexample :
    (process_file_worker [] tableSelfRef).map (fun o => o.rows.length) =
      .ok 0 ∧
    claimSurvivorCount tableSelfRef.rows = 1 := by
  decide

/-- C4 (amended): the number of output rows equals the number of input
rows whose `productcode` is not referenced as ANY row's
`ischildofproductcode` (a row referencing itself is dropped too), and
the output rows appear in the surviving input rows' relative order, as
witnessed by the `Part #` column. -/
theorem c4_amended (cm : List (String × String)) (t : Table)
    (h : hasRequired t = true) :
    ∃ out, process_file_worker cm t = .ok out ∧
      out.rows.length =
        (t.rows.filter fun r => !isReferenced t.rows r).length ∧
      out.rows.map (fun r => getCell r "Part #") =
        (t.rows.filter fun r => !isReferenced t.rows r).map
          (fun r => some ((getCell r "productcode").getD "#N/A")) := by
  refine ⟨_, worker_ok cm t h, ?_, ?_⟩
  · show ((survivingRows t).map (finalRowFun cm (cols2 t) (cols4 t))).length = _
    rw [List.length_map, survivingRows_eq, List.length_map]
  · show ((survivingRows t).map (finalRowFun cm (cols2 t) (cols4 t))).map
        (fun r => getCell r "Part #") = _
    rw [List.map_map, survivingRows_eq, List.map_map]
    apply List.map_congr_left
    intro r hr
    simp only [Function.comp]
    show getCell (finalRowFun cm (cols2 t) (cols4 t) (addTitleRow t.rows r))
        (applyRename "productcode") =
      some ((getCell r "productcode").getD "#N/A")
    rw [getCell_finalRowFun cm (cols2 t) (cols4 t) (addTitleRow t.rows r)
          "productcode" (by decide)
          (cols4_of_cols t _ (hasRequired_contains h _ (by decide)))
          (by decide) (by decide),
        getCell_addTitleRow_ne t.rows r _ (by decide)]

/-- C4 witness: the amended theorem applied to the three-row fixture. -/
theorem c4_amended_witness :
    ∃ out, process_file_worker [] tableABC = .ok out ∧
      out.rows.length =
        (tableABC.rows.filter fun r => !isReferenced tableABC.rows r).length ∧
      out.rows.map (fun r => getCell r "Part #") =
        (tableABC.rows.filter fun r => !isReferenced tableABC.rows r).map
          (fun r => some ((getCell r "productcode").getD "#N/A")) :=
  c4_amended [] tableABC (by decide)

/-- C5: `resolve_category_names` coincides with the specification's
five-step description of `resolveIds` on every input — empty or
non-string input gives the empty string; tokens are split on `,`,
trimmed, looked up with unresolved ids bracketed, "shop" and bracketed
names dropped, survivors joined with ", " in order — and on the
specification's example `"1,2,3"` with `{1: Shop, 2: Brakes, 3:
unmapped}` it resolves to `"Brakes"`. -/
theorem c5_resolver_matches_spec :
    (∀ (g : String → Option String) (c : Cell),
      resolve_category_names g c = resolveIds_spec g c) ∧
    resolve_category_names (dictGet exampleMapping) (some "1,2,3") = "Brakes" := by
  constructor
  · intro g c
    cases c with
    | none => rfl
    | some s =>
      by_cases hs : s = ""
      · subst hs
        rfl
      · simp only [resolve_category_names, resolveIds_spec]
        rw [if_neg hs, ← resolver_core_eq]
        rfl
  · decide

/-- A bracketed placeholder always satisfies the bracket test. -/
theorem bracketedB_placeholder (t : String) :
    bracketedB (placeholderOf t) = true := by
  have hd : (placeholderOf t).data = ('[' :: t.data) ++ [']'] := by
    unfold placeholderOf
    rw [String.data_append, String.data_append]
    rfl
  unfold bracketedB
  rw [hd, List.getLast?_concat]
  simp

/-- Core of C10: replacing the getter by one that forgets every
bracketed mapped name leaves the filtered name list unchanged, because a
bracketed mapped name and the placeholder of an unresolved id are both
dropped by the bracket filter. -/
theorem dropBracketed_names_eq (g : String → Option String) :
    ∀ l : List String,
      ((l.map fun i => (g (strTrim i)).getD (placeholderOf (strTrim i))).filter
          fun n => strLower n != "shop" && !(bracketedB n)) =
      ((l.map fun i =>
          (dropBracketedNames g (strTrim i)).getD (placeholderOf (strTrim i))).filter
          fun n => strLower n != "shop" && !(bracketedB n)) := by
  intro l
  induction l with
  | nil => rfl
  | cons i l ih =>
    simp only [List.map_cons, List.filter_cons]
    cases hg : g (strTrim i) with
    | none =>
      have hdrop : dropBracketedNames g (strTrim i) = none := by
        unfold dropBracketedNames
        rw [hg]
      rw [hdrop, ih]
    | some n =>
      have hdrop : dropBracketedNames g (strTrim i) =
          if bracketedB n then none else some n := by
        unfold dropBracketedNames
        rw [hg]
      by_cases hb : bracketedB n = true
      · rw [hdrop, if_pos hb]
        have hPn : (strLower n != "shop" && !(bracketedB n)) = false := by
          rw [hb]
          simp
        have hPp : (strLower (placeholderOf (strTrim i)) != "shop" &&
            !(bracketedB (placeholderOf (strTrim i)))) = false := by
          rw [bracketedB_placeholder]
          simp
        simp only [Option.getD_some, Option.getD_none, hPn, hPp,
          Bool.false_eq_true, if_false]
        exact ih
      · rw [hdrop, if_neg hb]
        simp only [Option.getD_some]
        rw [ih]

/-- C10: a successfully mapped category name that starts with `[` and
ends with `]` is silently dropped from the resolver's output, exactly as
if the id were unresolved — resolving with the original getter equals
resolving with the getter that forgets all bracketed names. -/
theorem c10_bracketed_name_like_unresolved :
    ∀ (g : String → Option String) (c : Cell),
      resolve_category_names g c =
        resolve_category_names (dropBracketedNames g) c := by
  intro g c
  cases c with
  | none => rfl
  | some s =>
    exact congrArg joinCommaSpace
      (dropBracketed_names_eq g ((splitComma s).filter fun i => strTrim i != ""))

/-- C8: the spec-modelled price-tier pipeline — each tier of a non-null
base price is `round(basePrice * multiplier, 2)`, a null base price
propagates to null tiers, an unparseable user-supplied jobber multiplier
fails the whole run with a `ValidationError` and no output rows, and the
default multipliers on base price 100 give 85 / 75 / 67.5. -/
theorem c8_price_tiers :
    (∀ (p : ℚ) (m : TierMultipliers),
      computeTiers (some p) m =
        ⟨some (round2 (p * m.jobber)), some (round2 (p * m.dealer)),
         some (round2 (p * m.oemwd))⟩) ∧
    (∀ m : TierMultipliers, computeTiers none m = ⟨none, none, none⟩) ∧
    (∀ (d o : Option String) (prices : List (Option ℚ)),
      runPriceTiers (some "not-a-number") d o prices =
        .error (.validationError "jobber")) ∧
    computeTiers (some 100) defaultMultipliers =
      ⟨some 85, some 75, some (135 / 2)⟩ := by
  refine ⟨fun p m => rfl, fun m => rfl, fun d o prices => rfl, ?_⟩
  have h1 : round2 (100 * defaultMultipliers.jobber) = 85 := by
    have e : ((100 : ℚ) * defaultMultipliers.jobber) * 100 = ((8500 : ℤ) : ℚ) := by
      unfold defaultMultipliers
      norm_num
    unfold round2
    rw [e, round_intCast]
    norm_num
  have h2 : round2 (100 * defaultMultipliers.dealer) = 75 := by
    have e : ((100 : ℚ) * defaultMultipliers.dealer) * 100 = ((7500 : ℤ) : ℚ) := by
      unfold defaultMultipliers
      norm_num
    unfold round2
    rw [e, round_intCast]
    norm_num
  have h3 : round2 (100 * defaultMultipliers.oemwd) = 135 / 2 := by
    have e : ((100 : ℚ) * defaultMultipliers.oemwd) * 100 = ((6750 : ℤ) : ℚ) := by
      unfold defaultMultipliers
      norm_num
    unfold round2
    rw [e, round_intCast]
    norm_num
  show (⟨some (round2 (100 * defaultMultipliers.jobber)),
         some (round2 (100 * defaultMultipliers.dealer)),
         some (round2 (100 * defaultMultipliers.oemwd))⟩ : TierPrices) = _
  rw [h1, h2, h3]

-- Regression checks: the embedded string and numeric primitives evaluate
-- inside the kernel as their Python counterparts do on these inputs.
example : strTrim "  a b " = "a b" := by decide
example : strLower "ShOp" = "shop" := by decide
example : splitComma "1, 2,3" = ["1", " 2", "3"] := by decide
example : splitComma "" = [""] := by decide
example : joinCommaSpace ["a", "b", "c"] = "a, b, c" := by decide
example : bracketedB "[3]" = true := by decide
example : bracketedB "x]" = false := by decide
example : getCell [("a", some "1"), ("b", none)] "b" = none := by decide
example : setCell [("a", some "1")] "a" (some "2") = [("a", some "2")] := by decide
example : setCell [("a", some "1")] "b" none = [("a", some "1"), ("b", none)] := by decide
example : resolve_category_names (dictGet [("1", "Shop"), ("2", "Brakes")]) (some "1,2,3") = "Brakes" := by decide
example : resolve_category_names (dictGet []) none = "" := by decide
example : parseDecimal? "abc" = none := by decide
example : parseDecimal? "1234.5" = some ⟨false, 1234, [5]⟩ := by decide
example : parseDecimal? "-3.25" = some ⟨true, 3, [2, 5]⟩ := by decide
example : fmtPrice (some "1234.5") = some "$1,234.50" := by decide
example : fmtPrice (some "abc") = some "" := by decide
example : fmtPrice none = some "" := by decide

-- Regression checks: two end-to-end worker runs on concrete tables.
example :
    process_file_worker []
      { cols := ["productcode", "productname", "ischildofproductcode"],
        rows := [[("productcode", some "A"), ("productname", some "N"),
                  ("ischildofproductcode", none)]] } =
    .ok { cols := outputColumnList,
          rows := [[("Part #", some "A"), ("Full Title", some "N"),
                    ("Parent #", some "#N/A"), ("Parent Title", some "#N/A"),
                    ("Retail Price", some "#N/A"), ("Length (in)", some "#N/A"),
                    ("Width (in)", some "#N/A"), ("Height (in)", some "#N/A"),
                    ("Weight (in)", some "#N/A"), ("Description", some "#N/A"),
                    ("Image 1", some "#N/A"), ("Image 2", some "#N/A"),
                    ("Image 3", some "#N/A"), ("Product Link", some "#N/A"),
                    ("Categories", some "#N/A")]] } := by decide

example :
    (process_file_worker []
      { cols := ["productcode", "productname", "ischildofproductcode"],
        rows := [[("productcode", some "A"), ("productname", some "Alpha"),
                  ("ischildofproductcode", none)],
                 [("productcode", some "B"), ("productname", some "Beta"),
                  ("ischildofproductcode", some "A")],
                 [("productcode", some "C"), ("productname", some "Gamma"),
                  ("ischildofproductcode", none)]] }).map
      (fun o => (o.rows.map fun r => getCell r "Part #",
                 o.rows.map fun r => getCell r "Parent Title")) =
    .ok ([some "B", some "C"], [some "Alpha", some "#N/A"]) := by decide

end Loadsheet
